import Mathlib

/-!
Verification of the spotlight video-normalization pipeline (`video.py`).

A shallow embedding of the arithmetic and control-flow core of `video.py`:
the 3:4 geometry computation of `process_videos_in_folder`, the bitrate
formula `calculate_target_bitrate`, the size-enforcement routine
`enforce_size_limit`, the hardware-capability probe
`detect_system` / `check_hardware_encoders` / `run_ffmpeg`, the exit-code
handling of `run_ffmpeg_with_progress`, and the temporary-directory
cleanup path of the per-file processing loop.

Python floats are modelled with exact rationals (`ℚ`).  For the constants
and the integer dimension / duration ranges that occur here, the binary
floating-point expressions of the source round exactly as their rational
counterparts (no expression lands on a representation boundary: the
rounded quantities have fractional parts in tenths, thirds or halves,
and the 0.01-tolerance ratio comparisons are never within double-precision
error of the threshold), so the rational model computes the same integers
as CPython.  Python's `round` is banker's rounding (round half to even)
and is modelled by `pyRound`; Python's floor division `//` by a positive
divisor coincides with `Int.ediv`, which is Lean's `/` on `ℤ`.
-/

namespace Spotlight

/-- Python's built-in `round` on exact rationals: round half to even. -/
def pyRound (q : ℚ) : ℤ :=
  let f := ⌊q⌋
  let r := q - f
  if r < 1/2 then f
  else if 1/2 < r then f + 1
  else if f % 2 = 0 then f else f + 1

/-- Model of `n if n % 2 == 0 else n - 1`: force a dimension to an even integer
by decrementing if odd (lines 817–818 and 838–839 of `video.py`). -/
def toEven (n : ℕ) : ℕ := if n % 2 = 0 then n else n - 1

/-- Even-forcing on `ℤ` (the canvas dimensions are `int`s produced by
`round`-based expressions). -/
def toEvenInt (n : ℤ) : ℤ := if n % 2 = 0 then n else n - 1

/-! ## Geometry: crop box (video.py lines 788–818) -/

/-- The crop rectangle: `crop_width`/`crop_height`/`crop_x`/`crop_y`
of `process_videos_in_folder`. -/
structure CropBox where
  crop_width : ℕ
  crop_height : ℕ
  crop_x : ℤ
  crop_y : ℤ
  deriving Repr, DecidableEq

/-- Lines 789–814: the three-way aspect branch, before even-forcing.
`target_ratio = 3/4`, `video_ratio = W/H`.
* `|video_ratio - target_ratio| < 0.01`: no crop;
* `video_ratio > target_ratio` (wider): `crop_width = int(H * 0.75)`
  (`= ⌊3H/4⌋`, exact in doubles), centered horizontally via
  `crop_x = (W - crop_width) // 2`;
* else (taller): `crop_height = int(W / 0.75)` (`= ⌊4W/3⌋`, exact in
  doubles for all realistic `W`), anchored at the top: `crop_y = 0`. -/
def cropBox0 (W H : ℕ) : CropBox :=
  if |(W : ℚ) / (H : ℚ) - 3/4| < 1/100 then
    { crop_width := W, crop_height := H, crop_x := 0, crop_y := 0 }
  else if (W : ℚ) / (H : ℚ) > 3/4 then
    { crop_width := 3 * H / 4, crop_height := H
      crop_x := ((W : ℤ) - (3 * H / 4 : ℕ)) / 2, crop_y := 0 }
  else
    { crop_width := W, crop_height := 4 * W / 3, crop_x := 0, crop_y := 0 }

/-- Lines 817–818: force the crop dimensions even by decrementing.
(The code computes `crop_x` before this adjustment; so does the model.) -/
def cropBox (W H : ℕ) : CropBox :=
  { cropBox0 W H with
      crop_width := toEven (cropBox0 W H).crop_width
      crop_height := toEven (cropBox0 W H).crop_height }

/-! ## Geometry: border and canvas (video.py lines 820–843) -/

/-- Line 823: `border_size = max(1, round(crop_width * (2 / 360)))`. -/
def border_size (crop_width : ℕ) : ℕ :=
  max 1 (pyRound ((crop_width : ℚ) * (2/360))).toNat

/-- Lines 827–828: `target_height = crop_height * 1.2`;
`canvas_height = int(round(target_height / 4) * 4)`. -/
def canvas_height0 (crop_height : ℕ) : ℤ :=
  pyRound ((crop_height : ℚ) * 1.2 / 4) * 4

/-- Line 829: `canvas_width = (canvas_height // 4) * 3`. -/
def canvas_width0 (crop_height : ℕ) : ℤ :=
  canvas_height0 crop_height / 4 * 3

/-- Lines 831–835: the widening safeguard, before final even-forcing.
`content_width = crop_width + border_size * 2`; if the derived canvas is
narrower than the content, the canvas takes the content width and the
height is recomputed as `int(round((canvas_width * 4 / 3) / 4) * 4)`.
Returns `(canvas_width, canvas_height)`. -/
def canvasPair (W H : ℕ) : ℤ × ℤ :=
  let cw := (cropBox W H).crop_width
  let ch := (cropBox W H).crop_height
  let content : ℤ := (cw : ℤ) + (border_size cw : ℤ) * 2
  if canvas_width0 ch < content then
    (content, pyRound (((content : ℚ) * 4 / 3) / 4) * 4)
  else
    (canvas_width0 ch, canvas_height0 ch)

/-- Line 838: final canvas width, forced even. -/
def canvas_width (W H : ℕ) : ℤ := toEvenInt (canvasPair W H).1

/-- Line 839: final canvas height, forced even. -/
def canvas_height (W H : ℕ) : ℤ := toEvenInt (canvasPair W H).2

/-- Lines 842–843: horizontal centering of the bordered content;
vertical offset is the literal `0` (top-aligned). -/
def paste_x (W H : ℕ) : ℤ :=
  (canvas_width W H -
    ((cropBox W H).crop_width + (border_size (cropBox W H).crop_width : ℤ) * 2)) / 2

def paste_y (_W _H : ℕ) : ℤ := 0

/-! ## Bitrate computation (video.py lines 178–210) -/

/-- Model of `calculate_target_bitrate(duration, target_size_mb, audio_bitrate_kbps)`:
`duration <= 0` short-circuits to the fixed fallback 2000 kbps; otherwise
the audio bits are subtracted from the size budget, the remainder is
divided by the duration, a 0.90 safety margin is applied, and the result
is clamped to [500, 5000] kbps. -/
def calculate_target_bitrate (duration target_size_mb audio_bitrate_kbps : ℚ) : ℚ :=
  if duration ≤ 0 then 2000
  else
    let target_bits := target_size_mb * 8 * 1024 * 1024
    let audio_bits := audio_bitrate_kbps * 1000 * duration
    let video_bits := target_bits - audio_bits
    let target_video_bitrate_kbps := video_bits / duration / 1000 * 0.90
    max 500 (min 5000 target_video_bitrate_kbps)

/-! ## Size-enforcement routine (video.py lines 304–377)

`enforce_size_limit` is straight-line code; its interactions with the
filesystem and with `reencode_to_target_size` are modelled by an
environment record giving the responses the routine observes, in order.
The success flag of the second re-encode attempt is assigned but never
read by the source (line 357 stores it, line 367 returns a size
comparison instead), so it does not appear in the environment. -/

/-- Environment for one `enforce_size_limit` call: what the filesystem
and the re-encode attempts report. -/
structure SizeEnv where
  /-- Value of `os.path.exists(output_path)` at entry (line 318). -/
  output_exists : Bool
  /-- Value of `get_file_size_mb(output_path)` at entry (line 322), in MB. -/
  initial_size : ℚ
  /-- return value of the first `reencode_to_target_size` (line 337). -/
  reenc1_ok : Bool
  /-- Value of `get_file_size_mb(output_path)` after the first attempt (line 348). -/
  size_after1 : ℚ
  /-- Value of `get_file_size_mb(output_path)` after the second attempt (line 365);
  measured unconditionally, whatever the second attempt did. -/
  size_after2 : ℚ
  deriving Repr

/-- Model of `enforce_size_limit(output_path, target_size_mb, ...)`, returning the
boolean result together with the list of size budgets passed to
`reencode_to_target_size`, in call order (the re-encode trace).
Each attempt computes its bitrate as
`calculate_target_bitrate(duration, budget, 128)` (lines 230–231). -/
def enforce_size_limit (env : SizeEnv) (target_size_mb : ℚ) : Bool × List ℚ :=
  if env.output_exists = false then (false, [])
  else if env.initial_size ≤ target_size_mb then (true, [])
  else if env.reenc1_ok = false then (false, [target_size_mb])
  else if env.size_after1 ≤ target_size_mb then (true, [target_size_mb])
  else
    (decide (env.size_after2 ≤ target_size_mb),
     [target_size_mb, target_size_mb * 0.95])

/-! ## Capability detection (video.py lines 413–454) and `run_ffmpeg`
(lines 17–42) -/

/-- The capability-snapshot fields of the `system_info` dict that the
probe reads or writes. -/
structure SystemInfo where
  platformName : String
  machine : String
  is_macos : Bool
  is_apple_silicon : Bool
  has_videotoolbox : Bool
  available_hw_encoders : List String
  deriving Repr, DecidableEq

/-- Model of `detect_system()`, parameterized by what `platform.system()` and
`platform.machine()` report. -/
def detect_system (platformName machine : String) : SystemInfo :=
  let is_macos := platformName == "Darwin"
  { platformName := platformName
    machine := machine
    is_macos := is_macos
    is_apple_silicon := is_macos && (machine == "arm64")
    has_videotoolbox := false
    available_hw_encoders := [] }

/-- Outcome of spawning the probe process.  `missing` models the
`FileNotFoundError` that `subprocess.run` raises when the binary is not
on the PATH; `ran` models a completed process.  The stdout of
`ffmpeg -encoders` is abstracted to the list of encoder names it
advertises (the source does substring searches on the text). -/
inductive ProcOutcome where
  | missing
  | ran (returncode : ℤ) (stdout_encoders : List String)
  deriving Repr, DecidableEq

/-- Model of `run_ffmpeg(cmd)`: returns `(success, stdout-abstraction)`, or
propagates the spawn exception.  `run_ffmpeg` has no try/except, so a
missing binary escapes it (modelled as `Except.error`). -/
def run_ffmpeg (proc : ProcOutcome) : Except Unit (Bool × List String) :=
  match proc with
  | .missing => .error ()
  | .ran returncode stdout_encoders => .ok (decide (returncode = 0), stdout_encoders)

/-- Model of `check_hardware_encoders(system_info)`: non-macOS returns the
snapshot untouched; on macOS it probes `ffmpeg -encoders` through
`run_ffmpeg` and, only when that reports success, fills in the
VideoToolbox encoder list and the `has_videotoolbox` flag. -/
def check_hardware_encoders (si : SystemInfo) (proc : ProcOutcome) :
    Except Unit SystemInfo :=
  if si.is_macos = false then .ok si
  else
    match run_ffmpeg proc with
    | .error e => .error e
    | .ok (success, stdout_encoders) =>
      if success then
        let hw_encoders :=
          (if "h264_videotoolbox" ∈ stdout_encoders then ["h264_videotoolbox"] else []) ++
          (if "hevc_videotoolbox" ∈ stdout_encoders then ["hevc_videotoolbox"] else []) ++
          (if "prores_videotoolbox" ∈ stdout_encoders then ["prores_videotoolbox"] else [])
        .ok { si with
                available_hw_encoders := hw_encoders
                has_videotoolbox := hw_encoders.length > 0 }
      else .ok si

/-! ## Exit handling of `run_ffmpeg_with_progress` (video.py lines 138–164) -/

/-- How the final wait on the child process ends (lines 139–146):
either `process.wait(timeout=...)` returns with an exit code, or it
raises `TimeoutExpired`, after which the runner terminates the process
and waits again; a SIGTERM-killed POSIX process reports exit code −15. -/
inductive WaitOutcome where
  | exited (returncode : ℤ)
  | timedOut
  deriving Repr, DecidableEq

/-- Line 141: `timeout_seconds = max(300, duration * 2) if duration > 0
else 300`. -/
def timeout_seconds (duration : ℚ) : ℚ :=
  if duration > 0 then max 300 (duration * 2) else 300

/-- The tail of `run_ffmpeg_with_progress` once the monitoring loop has
been left: the final returncode after the wait (and the forced
termination on timeout), and the returned success flag, which is the
lines-152–156 test `process.returncode == 0`. -/
def run_with_progress_exit (w : WaitOutcome) : Bool × ℤ :=
  let final_returncode : ℤ :=
    match w with
    | .exited returncode => returncode
    | .timedOut => -15
  (decide (final_returncode = 0), final_returncode)

/-! ## Per-file cleanup path (video.py lines 845–997)

`tmpdir` holding the mask/border PNGs is created at line 847.  The only
removal is line 959's `shutil.rmtree(tmpdir)` (itself wrapped in
`try/except: pass`), placed *after* the `run_ffmpeg_with_progress` call
inside the same `try:` block — there is no `finally`.  The model follows
the control flow of lines 954–993 from the encode call onward. -/

/-- How the `run_ffmpeg_with_progress` call of line 955 ends. -/
inductive EncodeOutcome where
  | completed (success : Bool)
  | interrupted
  | raised
  deriving Repr, DecidableEq

/-- What one file's processing does on exit, as far as the temporary
overlay assets are concerned. -/
structure JobExit where
  /-- the mask/border `tmpdir` was removed -/
  tmpdir_removed : Bool
  /-- a `KeyboardInterrupt` propagated out of the per-file handler -/
  reraised : Bool
  deriving Repr, DecidableEq

/-- Lines 954–993: if the encode call returns normally, line 959 removes
`tmpdir` (best-effort: a failing `rmtree` is swallowed) and processing
continues; a `KeyboardInterrupt` is re-raised by line 990 and any other
exception is absorbed by line 991 — in both cases control never reaches
line 959 and the temporary directory survives. -/
def file_cleanup_path (o : EncodeOutcome) (rmtree_ok : Bool) : JobExit :=
  match o with
  | .completed _ => { tmpdir_removed := rmtree_ok, reraised := false }
  | .interrupted => { tmpdir_removed := false, reraised := true }
  | .raised => { tmpdir_removed := false, reraised := false }

/-! ## Helper lemmas -/

theorem toEven_even (n : ℕ) : 2 ∣ toEven n := by
  unfold toEven
  split
  · omega
  · omega

theorem toEven_le (n : ℕ) : toEven n ≤ n := by
  unfold toEven; split <;> omega

theorem toEven_two_mul (n : ℕ) : ∃ k, toEven n = 2 * k := toEven_even n

theorem toEvenInt_even (n : ℤ) : 2 ∣ toEvenInt n := by
  unfold toEvenInt
  split <;> omega

theorem toEvenInt_of_even {n : ℤ} (h : 2 ∣ n) : toEvenInt n = n := by
  unfold toEvenInt
  split
  · rfl
  · omega

theorem pyRound_eq_floor {q : ℚ} {n : ℤ} (h1 : (n : ℚ) ≤ q) (h2 : q < (n : ℚ) + 1/2) :
    pyRound q = n := by
  have hf : ⌊q⌋ = n := Int.floor_eq_iff.mpr ⟨h1, by linarith⟩
  simp only [pyRound, hf]
  rw [if_pos (by linarith)]

theorem pyRound_eq_succ {q : ℚ} {n : ℤ} (h1 : (n : ℚ) + 1/2 < q) (h2 : q < (n : ℚ) + 1) :
    pyRound q = n + 1 := by
  have hf : ⌊q⌋ = n := Int.floor_eq_iff.mpr ⟨by linarith, h2⟩
  simp only [pyRound, hf]
  rw [if_neg (by linarith), if_pos (by linarith)]

theorem pyRound_intCast (n : ℤ) : pyRound (n : ℚ) = n :=
  pyRound_eq_floor le_rfl (by linarith)

/-- Python's round agrees with the round-half-up `round` of Mathlib
whenever the argument is not exactly halfway between two integers. -/
theorem pyRound_eq_round {q : ℚ} (h : q - ⌊q⌋ ≠ 1/2) : pyRound q = round q := by
  rcases lt_trichotomy (q - (⌊q⌋ : ℚ)) (1/2) with hlt | heq | hgt
  · have h1 : (⌊q⌋ : ℚ) ≤ q := Int.floor_le q
    rw [pyRound_eq_floor h1 (by linarith), round_eq]
    exact (Int.floor_eq_iff.mpr ⟨by linarith, by linarith⟩).symm
  · exact absurd heq h
  · have h2 : q < (⌊q⌋ : ℚ) + 1 := Int.lt_floor_add_one q
    rw [pyRound_eq_succ (by linarith) h2, round_eq]
    refine (Int.floor_eq_iff.mpr ⟨?_, ?_⟩).symm
    · push_cast; linarith
    · push_cast; linarith

/-- The quantity `m * 1.2 / 4` is never exactly halfway between two integers when `m`
is even: writing `m = 2k`, it equals `3k/5`, and `6k = 10⌊·⌋ + 5` is a
parity contradiction. -/
theorem no_tie_height {m : ℕ} (hm : 2 ∣ m) :
    ((m : ℚ) * 1.2 / 4) - ⌊(m : ℚ) * 1.2 / 4⌋ ≠ 1/2 := by
  obtain ⟨k, rfl⟩ := hm
  intro h
  set f := ⌊((2 * k : ℕ) : ℚ) * 1.2 / 4⌋ with hf
  have hq : ((2 * k : ℕ) : ℚ) * 1.2 / 4 = (3 * k : ℚ) / 5 := by push_cast; ring
  rw [hq] at h
  have h10 : (6 * k : ℚ) = 10 * f + 5 := by
    field_simp at h
    linarith
  have : (6 * k : ℤ) = 10 * f + 5 := by exact_mod_cast h10
  omega

/-- The quantity `n * 4 / 3 / 4` is never exactly halfway between two integers: it
equals `n/3`, and `2n = 6⌊·⌋ + 3` is a parity contradiction. -/
theorem no_tie_width (n : ℤ) :
    ((n : ℚ) * 4 / 3 / 4) - ⌊(n : ℚ) * 4 / 3 / 4⌋ ≠ 1/2 := by
  intro h
  set f := ⌊(n : ℚ) * 4 / 3 / 4⌋ with hf
  have hq : (n : ℚ) * 4 / 3 / 4 = (n : ℚ) / 3 := by ring
  rw [hq] at h
  have h6 : (2 * n : ℚ) = 6 * f + 3 := by
    field_simp at h
    linarith
  have : (2 * n : ℤ) = 6 * f + 3 := by exact_mod_cast h6
  omega

/-! ### Branch characterizations of the crop computation -/

theorem cropBox_near {W H : ℕ} (h : |(W:ℚ)/(H:ℚ) - 3/4| < 1/100) :
    cropBox W H = ⟨toEven W, toEven H, 0, 0⟩ := by
  simp only [cropBox, cropBox0, if_pos h]

theorem cropBox_wider {W H : ℕ} (h1 : ¬ |(W:ℚ)/(H:ℚ) - 3/4| < 1/100)
    (h2 : (W:ℚ)/(H:ℚ) > 3/4) :
    cropBox W H = ⟨toEven (3*H/4), toEven H, ((W:ℤ) - ((3*H/4 : ℕ) : ℤ))/2, 0⟩ := by
  simp only [cropBox, cropBox0, if_neg h1, if_pos h2]

theorem cropBox_taller {W H : ℕ} (h1 : ¬ |(W:ℚ)/(H:ℚ) - 3/4| < 1/100)
    (h2 : ¬ (W:ℚ)/(H:ℚ) > 3/4) :
    cropBox W H = ⟨toEven W, toEven (4*W/3), 0, 0⟩ := by
  simp only [cropBox, cropBox0, if_neg h1, if_neg h2]

/-! ### Concrete evaluations -/

theorem cropBox_eval_800_400 : cropBox 800 400 = ⟨300, 400, 250, 0⟩ := by
  rw [cropBox_wider (by norm_num [abs_lt]) (by norm_num)]
  decide

theorem cropBox_eval_400_800 : cropBox 400 800 = ⟨400, 532, 0, 0⟩ := by
  rw [cropBox_taller (by norm_num [abs_lt]) (by norm_num)]
  decide

theorem cropBox_eval_401_800 : cropBox 401 800 = ⟨400, 534, 0, 0⟩ := by
  rw [cropBox_taller (by norm_num [abs_lt]) (by norm_num)]
  decide

theorem border_size_300 : border_size 300 = 2 := by
  have hp : pyRound (((300:ℕ):ℚ) * (2/360)) = 2 := by
    rw [show (((300:ℕ)):ℚ) * (2/360) = 5/3 by norm_num]
    have h := pyRound_eq_succ (q := 5/3) (n := 1) (by norm_num) (by norm_num)
    norm_num at h
    exact h
  simp only [border_size, hp]
  decide

theorem canvas_height0_400 : canvas_height0 400 = 480 := by
  simp only [canvas_height0]
  rw [show (((400:ℕ)):ℚ) * 1.2 / 4 = ((120:ℤ):ℚ) by norm_num, pyRound_intCast]
  decide

theorem canvas_width0_400 : canvas_width0 400 = 360 := by
  simp only [canvas_width0, canvas_height0_400]
  decide

theorem canvasPair_800_400 : canvasPair 800 400 = (360, 480) := by
  simp only [canvasPair, cropBox_eval_800_400, border_size_300, canvas_width0_400,
    canvas_height0_400]
  norm_num

theorem canvas_eval_800_400 : canvas_width 800 400 = 360 ∧ canvas_height 800 400 = 480 := by
  simp only [canvas_width, canvas_height, canvasPair_800_400]
  decide

/-! ### The canvas derivation as the specification words it -/

/-- The canvas derivation exactly as the specification states it:
`canvasHeight = round(cropHeight · 1.2 / 4) · 4`;
`canvasWidth = floor(canvasHeight / 4) · 3`; if
`canvasWidth < cropWidth + 2·borderThickness`, widen the canvas to the
content width and recompute `canvasHeight = round((canvasWidth·4/3)/4)·4`.
Stated with Mathlib's `round`; the source's banker's rounding agrees here
because neither rounded quantity can be a tie (`no_tie_height`,
`no_tie_width`). -/
def specCanvas (cropWidth cropHeight borderThickness : ℕ) : ℤ × ℤ :=
  let canvasHeight : ℤ := round ((cropHeight : ℚ) * 1.2 / 4) * 4
  let canvasWidth : ℤ := canvasHeight / 4 * 3
  if canvasWidth < (cropWidth : ℤ) + 2 * (borderThickness : ℤ) then
    let w : ℤ := (cropWidth : ℤ) + 2 * (borderThickness : ℤ)
    (w, round ((w : ℚ) * 4 / 3 / 4) * 4)
  else (canvasWidth, canvasHeight)

/-- The code's canvas stage (before the final even-forcing) coincides
with the specification's derivation formula. -/
theorem canvasPair_eq_spec (W H : ℕ) :
    canvasPair W H =
      specCanvas (cropBox W H).crop_width (cropBox W H).crop_height
        (border_size (cropBox W H).crop_width) := by
  have hche : 2 ∣ (cropBox W H).crop_height := by
    simp only [cropBox]
    exact toEven_even _
  simp only [canvasPair, specCanvas, canvas_width0, canvas_height0]
  rw [pyRound_eq_round (no_tie_height hche)]
  have hb2 : ((cropBox W H).crop_width : ℤ) + (border_size (cropBox W H).crop_width : ℤ) * 2 =
      ((cropBox W H).crop_width : ℤ) + 2 * (border_size (cropBox W H).crop_width : ℤ) := by
    ring
  rw [hb2]
  split_ifs with h
  · simp only [Prod.mk.injEq, true_and]
    rw [pyRound_eq_round (no_tie_width _)]
  · rfl

/-- Exact value of the bitrate formula at duration 60 s, 10 MB budget,
192 kbps audio: `(10·8·1024·1024 − 192000·60)/60/1000 · 0.90 = 678432/625
= 1085.4912`. -/
theorem bitrate_60_10_192 : calculate_target_bitrate 60 10 192 = 678432/625 := by
  simp only [calculate_target_bitrate]
  rw [if_neg (by norm_num : ¬ (60:ℚ) ≤ 0)]
  rw [show ((10:ℚ) * 8 * 1024 * 1024 - 192 * 1000 * 60) / 60 / 1000 * 0.90 = 678432/625 by
    norm_num]
  rw [min_eq_right (by norm_num), max_eq_right (by norm_num)]

/-! ## The claims -/

/-- C1: for every positive input width `W` and height `H`, the geometry
computation derives the canvas by `canvasHeight = round(cropHeight·1.2/4)·4`
and `canvasWidth = floor(canvasHeight/4)·3`, widening to
`cropWidth + 2·borderThickness` (and recomputing the height as
`round((canvasWidth·4/3)/4)·4`) when the derived canvas is narrower than
the content; in particular for `W=800, H=400` the crop is 300×400 and the
final canvas is 360×480.  (The code's one further step, forcing the final
canvas dimensions even, leaves 360×480 unchanged here.) -/
theorem C1_canvas_derivation :
    (∀ W H : ℕ, 0 < W → 0 < H →
      canvasPair W H =
        specCanvas (cropBox W H).crop_width (cropBox W H).crop_height
          (border_size (cropBox W H).crop_width)) ∧
    cropBox 800 400 = ⟨300, 400, 250, 0⟩ ∧
    canvas_width 800 400 = 360 ∧ canvas_height 800 400 = 480 :=
  ⟨fun W H _ _ => canvasPair_eq_spec W H, cropBox_eval_800_400,
    canvas_eval_800_400.1, canvas_eval_800_400.2⟩

theorem C1_canvas_derivation_witness :
    canvasPair 800 400 =
      specCanvas (cropBox 800 400).crop_width (cropBox 800 400).crop_height
        (border_size (cropBox 800 400).crop_width) :=
  C1_canvas_derivation.1 800 400 (by decide) (by decide)

/-- C2: when the output exists and exceeds the budget,
`enforce_size_limit` performs at most two re-encode attempts — the first
at the full budget, the second at `budget × 0.95` — and when both leave
the file over budget it reports failure; the routine is a total function
of its environment, so it cannot loop indefinitely. -/
theorem C2_size_loop_bounded (env : SizeEnv) (target_size_mb : ℚ)
    (h1 : env.output_exists = true) (h2 : target_size_mb < env.initial_size) :
    (enforce_size_limit env target_size_mb).2.length ≤ 2 ∧
    (enforce_size_limit env target_size_mb).2 =
      List.take (enforce_size_limit env target_size_mb).2.length
        [target_size_mb, target_size_mb * 0.95] ∧
    (env.reenc1_ok = true → target_size_mb < env.size_after1 →
      target_size_mb < env.size_after2 →
      enforce_size_limit env target_size_mb =
        (false, [target_size_mb, target_size_mb * 0.95])) := by
  have e1 : ¬ env.output_exists = false := by simp [h1]
  have e2 : ¬ env.initial_size ≤ target_size_mb := not_le.mpr h2
  simp only [enforce_size_limit, if_neg e1, if_neg e2]
  by_cases h3 : env.reenc1_ok = false
  · rw [if_pos h3]
    refine ⟨by simp, by simp, ?_⟩
    intro h3' _ _
    exact absurd h3' (by simp [h3])
  · rw [if_neg h3]
    by_cases h4 : env.size_after1 ≤ target_size_mb
    · rw [if_pos h4]
      exact ⟨by simp, by simp, fun _ h4' _ => absurd h4 (not_le.mpr h4')⟩
    · rw [if_neg h4]
      refine ⟨by simp, by simp, ?_⟩
      intro _ _ h5
      rw [decide_eq_false (not_le.mpr h5)]

theorem C2_size_loop_bounded_witness :
    (enforce_size_limit ⟨true, 20, true, 15, 12⟩ 10).2.length ≤ 2 ∧
    (enforce_size_limit ⟨true, 20, true, 15, 12⟩ 10).2 =
      List.take (enforce_size_limit ⟨true, 20, true, 15, 12⟩ 10).2.length
        [10, 10 * 0.95] ∧
    ((⟨true, 20, true, 15, 12⟩ : SizeEnv).reenc1_ok = true → (10:ℚ) < 15 →
      (10:ℚ) < 12 →
      enforce_size_limit ⟨true, 20, true, 15, 12⟩ 10 = (false, [10, 10 * 0.95])) :=
  C2_size_loop_bounded ⟨true, 20, true, 15, 12⟩ 10 rfl (by decide)

/-- C3 (counterexample): at `W=401, H=800` — inside the claim's
"taller than target" hypothesis `W/H < 3/4 − 0.01` — the crop does not
keep the full width: the even-forcing decrements it from 401 to 400, so
"keeps the full width" fails as universally stated. -/
theorem C3_top_anchor_counterexample :
    ((401:ℕ):ℚ)/((800:ℕ):ℚ) < 3/4 - 1/100 ∧ (cropBox 401 800).crop_width ≠ 401 := by
  refine ⟨by norm_num, ?_⟩
  rw [cropBox_eval_401_800]
  decide

/-- C3 (amended): for every input taller than the 3:4 target
(`W/H < 3/4 − 0.01`), the geometry computation crops height to
`int(W/0.75)` decremented to even, keeps the full width decremented to
even when odd, and anchors the crop at the top with vertical offset
exactly 0 (never centered); in particular for `W=400, H=800` the crop
height is 532 and `crop_y = 0`, not `(800−532)/2`. -/
theorem C3_top_anchor_amended :
    (∀ W H : ℕ, 0 < W → 0 < H → (W:ℚ)/(H:ℚ) < 3/4 - 1/100 →
      cropBox W H = ⟨toEven W, toEven (4*W/3), 0, 0⟩) ∧
    cropBox 400 800 = ⟨400, 532, 0, 0⟩ ∧ ((800:ℤ) - 532)/2 ≠ 0 := by
  refine ⟨?_, cropBox_eval_400_800, by decide⟩
  intro W H _ _ h
  have h2 : ¬ (W:ℚ)/(H:ℚ) > 3/4 := by
    rw [gt_iff_lt, not_lt]
    linarith
  have h1 : ¬ |(W:ℚ)/(H:ℚ) - 3/4| < 1/100 := by
    rw [not_lt, abs_of_nonpos (by linarith)]
    linarith
  exact cropBox_taller h1 h2

theorem C3_top_anchor_amended_witness :
    cropBox 400 800 = ⟨toEven 400, toEven (4*400/3), 0, 0⟩ :=
  C3_top_anchor_amended.1 400 800 (by decide) (by decide) (by norm_num)

/-- C4: for every positive input width and height, the four derived
dimensions — crop width, crop height, canvas width, canvas height — are
all even integers. -/
theorem C4_even_dimensions : ∀ W H : ℕ, 0 < W → 0 < H →
    2 ∣ (cropBox W H).crop_width ∧ 2 ∣ (cropBox W H).crop_height ∧
    2 ∣ canvas_width W H ∧ 2 ∣ canvas_height W H := by
  intro W H _ _
  refine ⟨?_, ?_, toEvenInt_even _, toEvenInt_even _⟩
  · simp only [cropBox]
    exact toEven_even _
  · simp only [cropBox]
    exact toEven_even _

theorem C4_even_dimensions_witness :
    2 ∣ (cropBox 800 400).crop_width ∧ 2 ∣ (cropBox 800 400).crop_height ∧
    2 ∣ canvas_width 800 400 ∧ 2 ∣ canvas_height 800 400 :=
  C4_even_dimensions 800 400 (by decide) (by decide)

/-- C5 (counterexample): `calculate_target_bitrate(60, 10, 192)` equals
exactly `678432/625 = 1085.4912` kbps; that is more than 12 kbps away
from the claim's "≈ 1098", so the claimed numeral is not the value of the
claimed formula up to rounding. -/
theorem C5_bitrate_counterexample :
    calculate_target_bitrate 60 10 192 = 678432/625 ∧
    12 < |(678432/625 : ℚ) - 1098| := by
  refine ⟨bitrate_60_10_192, ?_⟩
  rw [show (678432/625 : ℚ) - 1098 = -(7818/625) by norm_num, abs_neg,
    abs_of_nonneg (by norm_num)]
  norm_num

/-- C5 (amended): `calculate_target_bitrate(60, 10, 192)` lies strictly
within [500, 5000] kbps and equals
`(10·8·1024·1024 − 192000·60)/60/1000 · 0.90 = 1085.4912 ≈ 1085` kbps
(the claimed formula is the code's formula; its value is ≈1085, not the
spec's miscomputed ≈1098). -/
theorem C5_bitrate_amended :
    500 < calculate_target_bitrate 60 10 192 ∧
    calculate_target_bitrate 60 10 192 < 5000 ∧
    |calculate_target_bitrate 60 10 192 - 1085| < 1/2 := by
  rw [bitrate_60_10_192]
  refine ⟨by norm_num, by norm_num, ?_⟩
  rw [show (678432/625 : ℚ) - 1085 = 307/625 by norm_num,
    abs_of_nonneg (by norm_num)]
  norm_num

/-- C6 (counterexample): when the encode call is ended by an operator
interrupt, the per-file handler re-raises without ever reaching the
`rmtree` call — the temporary mask/border directory survives, so the
deletion is not an unconditional scoped-resource guarantee. -/
theorem C6_cleanup_counterexample :
    (file_cleanup_path .interrupted true).tmpdir_removed = false ∧
    (file_cleanup_path .interrupted true).reraised = true :=
  ⟨rfl, rfl⟩

/-- C6 (amended): the temporary overlay directory is removed exactly when
the encode call returns normally (success or failure return) and the
best-effort `rmtree` itself succeeds; an operator interrupt (which is
re-raised) or any other exception escaping the encode call skips the
cleanup. -/
theorem C6_cleanup_amended :
    ∀ (o : EncodeOutcome) (rmtree_ok : Bool),
      ((file_cleanup_path o rmtree_ok).tmpdir_removed = true ↔
        (∃ s, o = .completed s) ∧ rmtree_ok = true) ∧
      ((file_cleanup_path o rmtree_ok).reraised = true ↔ o = .interrupted) := by
  intro o rm
  cases o <;> cases rm <;> simp [file_cleanup_path]

/-- C7 (counterexample): with the probe binary missing, spawning raises
`FileNotFoundError`, which `run_ffmpeg` does not catch —
`check_hardware_encoders` propagates it instead of returning a degraded
snapshot, contradicting "does not raise or fail the run". -/
theorem C7_probe_counterexample :
    check_hardware_encoders (detect_system "Darwin" "arm64") .missing = .error () :=
  rfl

/-- C7 (amended): if the probe tool runs but exits non-zero, capability
detection leaves the snapshot exactly as `detect_system` built it — no
hardware acceleration (`has_videotoolbox = false`, empty encoder list) —
and does not raise; only a missing probe binary escapes as an
exception. -/
theorem C7_probe_amended :
    ∀ (platformName machine : String) (returncode : ℤ) (stdout_encoders : List String),
      returncode ≠ 0 →
      check_hardware_encoders (detect_system platformName machine)
          (.ran returncode stdout_encoders) =
        .ok (detect_system platformName machine) ∧
      (detect_system platformName machine).has_videotoolbox = false ∧
      (detect_system platformName machine).available_hw_encoders = [] := by
  intro p m rc out h
  refine ⟨?_, rfl, rfl⟩
  simp only [check_hardware_encoders, run_ffmpeg]
  split
  · rfl
  · simp [decide_eq_false h]

theorem C7_probe_amended_witness :
    check_hardware_encoders (detect_system "Darwin" "arm64") (.ran 1 []) =
      .ok (detect_system "Darwin" "arm64") ∧
    (detect_system "Darwin" "arm64").has_videotoolbox = false ∧
    (detect_system "Darwin" "arm64").available_hw_encoders = [] :=
  C7_probe_amended "Darwin" "arm64" 1 [] (by decide)

/-- C8: once the runner reaches process exit, the returned success flag
is `true` exactly when the final exit code is 0; in particular the
timeout path, which terminates the child (exit code −15), reports
failure. -/
theorem C8_exit_code_success :
    (∀ w : WaitOutcome,
      (run_with_progress_exit w).1 = true ↔ (run_with_progress_exit w).2 = 0) ∧
    (run_with_progress_exit .timedOut).1 = false := by
  refine ⟨?_, rfl⟩
  intro w
  cases w with
  | exited rc => simp [run_with_progress_exit]
  | timedOut => simp [run_with_progress_exit]

/-- C9: for every positive source width and height, the crop rectangle
lies entirely within the source frame: `crop_x ≥ 0`, `crop_y = 0`,
`crop_x + crop_width ≤ W` and `crop_height ≤ H`, in all three aspect
branches. -/
theorem C9_crop_within_frame : ∀ W H : ℕ, 0 < W → 0 < H →
    0 ≤ (cropBox W H).crop_x ∧ (cropBox W H).crop_y = 0 ∧
    (cropBox W H).crop_x + ((cropBox W H).crop_width : ℤ) ≤ (W : ℤ) ∧
    (cropBox W H).crop_height ≤ H := by
  intro W H _ hH
  by_cases h1 : |(W:ℚ)/(H:ℚ) - 3/4| < 1/100
  · rw [cropBox_near h1]
    have h5 := toEven_le W
    have h6 := toEven_le H
    refine ⟨le_rfl, rfl, ?_, h6⟩
    push_cast
    omega
  · by_cases h2 : (W:ℚ)/(H:ℚ) > 3/4
    · rw [cropBox_wider h1 h2]
      have hq : (3:ℚ) * H < 4 * W := by
        rw [gt_iff_lt, div_lt_div_iff₀ (by norm_num) (by exact_mod_cast hH)] at h2
        linarith
      have h3 : 3 * H < 4 * W := by exact_mod_cast hq
      have h4 := toEven_le (3*H/4)
      have h5 := toEven_le H
      refine ⟨?_, rfl, ?_, h5⟩ <;> push_cast <;> omega
    · rw [cropBox_taller h1 h2]
      push_neg at h2
      have habs : 1/100 ≤ |(W:ℚ)/(H:ℚ) - 3/4| := not_lt.mp h1
      rw [abs_of_nonpos (by linarith)] at habs
      have h74 : (100:ℚ) * W ≤ 74 * H := by
        rw [div_le_iff₀ (by exact_mod_cast hH)] at h2
        have h2' : (W:ℚ)/(H:ℚ) ≤ 74/100 := by linarith
        rw [div_le_iff₀ (by exact_mod_cast hH)] at h2'
        linarith
      have h74' : 100 * W ≤ 74 * H := by exact_mod_cast h74
      have h4 := toEven_le (4*W/3)
      have h5 := toEven_le W
      refine ⟨le_rfl, rfl, ?_, ?_⟩ <;> push_cast <;> omega

theorem C9_crop_within_frame_witness :
    0 ≤ (cropBox 800 400).crop_x ∧ (cropBox 800 400).crop_y = 0 ∧
    (cropBox 800 400).crop_x + ((cropBox 800 400).crop_width : ℤ) ≤ (800 : ℤ) ∧
    (cropBox 800 400).crop_height ≤ 400 :=
  C9_crop_within_frame 800 400 (by decide) (by decide)

/-- C10: for every non-positive duration (including the 0 that
`get_video_info` substitutes when the probe reports no duration),
`calculate_target_bitrate` ignores the size and audio arguments and
returns the fixed fallback 2000 kbps, never dividing by the duration. -/
theorem C10_duration_fallback :
    ∀ duration target_size_mb audio_bitrate_kbps : ℚ, duration ≤ 0 →
      calculate_target_bitrate duration target_size_mb audio_bitrate_kbps = 2000 := by
  intro d t a h
  simp only [calculate_target_bitrate, if_pos h]

theorem C10_duration_fallback_witness :
    calculate_target_bitrate 0 10 192 = 2000 :=
  C10_duration_fallback 0 10 192 le_rfl

end Spotlight
